import Mathlib

/-!
Verification of the penrose X connection layer (src/core/xconnection.rs).

The layer is shallowly embedded: machine integers become Nat (with explicit
wrap-around where the Rust arithmetic can overflow), server round-trips become
explicit reply arguments of type Except, and a Rust panic is modelled by the
fatal constructor of the Outcome type below. X byte strings are modelled as
lists of byte values so that UTF-8 validity and null-splitting stay explicit.
-/

set_option autoImplicit false
set_option linter.unusedVariables false

/-- Result of running a piece of Rust code that may panic: fatal models a
panic with its message, value models normal completion. -/
inductive Outcome (α : Type) where
  | fatal (msg : String)
  | value (a : α)
  deriving Repr, DecidableEq

namespace xcb

/-- xproto KeyPress event number. -/
def KEY_PRESS : Nat := 2

/-- xproto ButtonPress event number. -/
def BUTTON_PRESS : Nat := 4

/-- xproto ButtonRelease event number. -/
def BUTTON_RELEASE : Nat := 5

/-- xproto EnterNotify event number. -/
def ENTER_NOTIFY : Nat := 7

/-- xproto LeaveNotify event number. -/
def LEAVE_NOTIFY : Nat := 8

/-- xproto FocusIn event number. -/
def FOCUS_IN : Nat := 9

/-- xproto FocusOut event number. -/
def FOCUS_OUT : Nat := 10

/-- xproto DestroyNotify event number. -/
def DESTROY_NOTIFY : Nat := 17

/-- xproto MapNotify event number. -/
def MAP_NOTIFY : Nat := 19

namespace randr

/-- randr ScreenChangeNotify event number (relative to the extension base). -/
def SCREEN_CHANGE_NOTIFY : Nat := 0

/-- randr Notify event number (relative to the extension base). -/
def NOTIFY : Nat := 1

end randr

end xcb

/-- Modelled from the spec: Point (x, y) is a plain geometry value type from
src/data_types.rs, which is outside the analyzed sources. -/
structure Point where
  x : Nat
  y : Nat
  deriving Repr, DecidableEq

/-- Modelled from the spec: Region (x, y, width, height) is a plain geometry
value type from src/data_types.rs, which is outside the analyzed sources. -/
structure Region where
  x : Nat
  y : Nat
  w : Nat
  h : Nat
  deriving Repr, DecidableEq

/-- The values method of Region: the (x, y, w, h) tuple, as destructured by
the zero-width filter in current_outputs. -/
def Region.values (r : Region) : Nat × Nat × Nat × Nat := (r.x, r.y, r.w, r.h)

/-- Modelled from the spec: KeyCode is a (modifier-mask, keycode) pair from
src/data_types.rs, which is outside the analyzed sources. -/
structure KeyCode where
  mask : Nat
  code : Nat
  deriving Repr, DecidableEq

/-- Modelled from the spec: Screen (src/screen.rs, outside the analyzed
sources) holds the physical geometry true_region, the usable area
effective_region, and the output index. -/
structure Screen where
  true_region : Region
  effective_region : Region
  wix : Nat
  deriving Repr, DecidableEq

/-- The closed XEvent variant set exposed to the window-manager core,
mirroring enum XEvent in xconnection.rs. -/
inductive XEvent where
  | ButtonPress
  | ButtonRelease
  | KeyPress (code : KeyCode)
  | Map (id : Nat) (ignore : Bool)
  | Enter (id : Nat) (rpt : Point) (wpt : Point)
  | Leave (id : Nat) (rpt : Point) (wpt : Point)
  | FocusIn (id : Nat)
  | FocusOut (id : Nat)
  | Destroy (id : Nat)
  | ScreenChange
  | RandrNotify
  deriving Repr, DecidableEq

/-- The fixed list of atom names interned at bootstrap (const ATOMS). -/
def ATOMS : List String :=
  ["MANAGER",
   "UTF8_STRING",
   "WM_CLASS",
   "WM_DELETE_WINDOW",
   "WM_PROTOCOLS",
   "WM_STATE",
   "WM_NAME",
   "WM_TAKE_FOCUS",
   "_NET_ACTIVE_WINDOW",
   "_NET_CLIENT_LIST",
   "_NET_CURRENT_DESKTOP",
   "_NET_DESKTOP_NAMES",
   "_NET_NUMBER_OF_DESKTOPS",
   "_NET_SUPPORTED",
   "_NET_SUPPORTING_WM_CHECK",
   "_NET_SYSTEM_TRAY_OPCODE",
   "_NET_SYSTEM_TRAY_ORIENTATION",
   "_NET_SYSTEM_TRAY_ORIENTATION_HORZ",
   "_NET_SYSTEM_TRAY_S0",
   "_NET_WM_DESKTOP",
   "_NET_WM_NAME",
   "_NET_WM_STATE",
   "_NET_WM_STATE_FULLSCREEN",
   "_NET_WM_WINDOW_TYPE",
   "_NET_WM_WINDOW_TYPE_DIALOG",
   "_XEMBED",
   "_XEMBED_INFO",
   "_NET_WM_WINDOW_TYPE_DESKTOP",
   "_NET_WM_WINDOW_TYPE_DOCK",
   "_NET_WM_WINDOW_TYPE_TOOLBAR",
   "_NET_WM_WINDOW_TYPE_MENU",
   "_NET_WM_WINDOW_TYPE_UTILITY",
   "_NET_WM_WINDOW_TYPE_SPLASH",
   "_NET_WM_WINDOW_TYPE_DIALOG",
   "_NET_WM_WINDOW_TYPE_DROPDOWN_MENU",
   "_NET_WM_WINDOW_TYPE_POPUP_MENU",
   "_NET_WM_WINDOW_TYPE_NOTIFICATION",
   "_NET_WM_WINDOW_TYPE_COMBO",
   "_NET_WM_WINDOW_TYPE_DND",
   "_NET_WM_WINDOW_TYPE_NORMAL"]

/-- The window types that are floated automatically
(const AUTO_FLOAT_WINDOW_TYPES). -/
def AUTO_FLOAT_WINDOW_TYPES : List String :=
  ["_NET_WM_WINDOW_TYPE_DESKTOP",
   "_NET_WM_WINDOW_TYPE_DIALOG",
   "_NET_WM_WINDOW_TYPE_DOCK",
   "_NET_WM_WINDOW_TYPE_DROPDOWN_MENU",
   "_NET_WM_WINDOW_TYPE_MENU",
   "_NET_WM_WINDOW_TYPE_NOTIFICATION",
   "_NET_WM_WINDOW_TYPE_POPUP_MENU",
   "_NET_WM_WINDOW_TYPE_SPLASH",
   "_NET_WM_WINDOW_TYPE_TOOLBAR",
   "_NET_WM_WINDOW_TYPE_UTILITY"]

/-- Lookup in the name-to-id atom table (HashMap get on the interned map). -/
def lookupAtom : List (String × Nat) → String → Option Nat
  | [], _ => none
  | p :: rest, name => if p.1 = name then some p.2 else lookupAtom rest name

/-- The connection state that the pure operations read: the interned atom
table, the cached auto-float type ids and the randr extension event base.
The live socket handle, root window and check window are server-side
resources that the embedded operations never inspect. -/
structure XcbConnection where
  atoms : List (String × Nat)
  auto_float_types : List Nat
  randr_base : Nat
  deriving Repr, DecidableEq

/-- XcbConnection::new, with the server round-trips abstracted: internAtom is
the id the server assigns to each interned name and first_event is the randr
extension event base returned by get_extension_data. The getD 0 models the
unwrap in the source, which cannot fail because every auto-float type name is
a member of ATOMS. -/
def XcbConnection.new (internAtom : String → Nat) (first_event : Nat) : XcbConnection :=
  let atomTable := ATOMS.map (fun a => (a, internAtom a))
  { atoms := atomTable
    auto_float_types := AUTO_FLOAT_WINDOW_TYPES.map (fun t => (lookupAtom atomTable t).getD 0)
    randr_base := first_event }

/-- XcbConnection::atom: the id for a name, a panic (expect) when the name
was not interned at bootstrap. -/
def XcbConnection.atom (conn : XcbConnection) (name : String) : Outcome Nat :=
  match lookupAtom conn.atoms name with
  | some v => Outcome.value v
  | none => Outcome.fatal (name ++ " is not a known atom")

/-- Rust cast of a signed 16-bit coordinate to u32: sign-extend, then
reinterpret the bits, i.e. reduce modulo 2 to the 32. -/
def as_u32 (x : Int) : Nat := (x % 4294967296).toNat

/-- One raw wire event, the union of every field the translator reads from
the differently-shaped xcb event structs after cast_event: the numeric type
tag, the keycode (detail), the held modifier mask (state), the event window,
the subject window, the override-redirect flag and the two coordinate pairs. -/
structure RawEvent where
  response_type : Nat
  detail : Nat
  state : Nat
  event : Nat
  window : Nat
  override_redirect : Bool
  root_x : Int
  root_y : Int
  event_x : Int
  event_y : Int
  deriving Repr, DecidableEq

/-- Modelled from the spec: KeyCode::from_key_press (src/data_types.rs,
outside the analyzed sources) decodes a KeyCode from the raw keycode and the
held modifier mask. -/
def KeyCode.from_key_press (e : RawEvent) : KeyCode :=
  { mask := e.state, code := e.detail }

/-- XcbConnection::wait_for_event with the blocking socket read abstracted:
raw is what conn.wait_for_event() delivered (none on a connection-level
failure). The randr check comes first, then the dispatch on literal tags;
the u8 sum randr_base + NOTIFY wraps modulo 256. -/
def XcbConnection.wait_for_event (conn : XcbConnection) (raw : Option RawEvent) :
    Option XEvent :=
  Option.bind raw (fun event =>
    let etype := event.response_type
    if etype = (conn.randr_base + xcb.randr.NOTIFY) % 256 then
      some XEvent.RandrNotify
    else if etype = xcb.BUTTON_PRESS then
      none
    else if etype = xcb.BUTTON_RELEASE then
      none
    else if etype = xcb.KEY_PRESS then
      some (XEvent.KeyPress (KeyCode.from_key_press event))
    else if etype = xcb.MAP_NOTIFY then
      some (XEvent.Map event.window event.override_redirect)
    else if etype = xcb.ENTER_NOTIFY then
      some (XEvent.Enter event.event
        (Point.mk (as_u32 event.root_x) (as_u32 event.root_y))
        (Point.mk (as_u32 event.event_x) (as_u32 event.event_y)))
    else if etype = xcb.LEAVE_NOTIFY then
      some (XEvent.Leave event.event
        (Point.mk (as_u32 event.root_x) (as_u32 event.root_y))
        (Point.mk (as_u32 event.event_x) (as_u32 event.event_y)))
    else if etype = xcb.FOCUS_IN then
      some (XEvent.FocusIn event.event)
    else if etype = xcb.FOCUS_OUT then
      some (XEvent.FocusOut event.event)
    else if etype = xcb.DESTROY_NOTIFY then
      some (XEvent.Destroy event.window)
    else if etype = xcb.randr.SCREEN_CHANGE_NOTIFY then
      some XEvent.ScreenChange
    else
      none)

/-- The literal tags the dispatch arm of wait_for_event recognizes. -/
def recognizedTags : List Nat :=
  [xcb.BUTTON_PRESS, xcb.BUTTON_RELEASE, xcb.KEY_PRESS, xcb.MAP_NOTIFY,
   xcb.ENTER_NOTIFY, xcb.LEAVE_NOTIFY, xcb.FOCUS_IN, xcb.FOCUS_OUT,
   xcb.DESTROY_NOTIFY, xcb.randr.SCREEN_CHANGE_NOTIFY]

/-- A UTF-8 continuation byte, 0x80 to 0xBF. -/
def isUtf8Cont (b : Nat) : Bool := 128 ≤ b && b ≤ 191

/-- Validity of a byte sequence as UTF-8, the check String::from_utf8
performs: ASCII, two-, three- and four-byte sequences with the standard
excluded ranges (overlong encodings, surrogates, values past 0x10FFFF). -/
def isValidUtf8 : List Nat → Bool
  | [] => true
  | b0 :: rest =>
    if b0 ≤ 127 then
      isValidUtf8 rest
    else if 194 ≤ b0 && b0 ≤ 223 then
      match rest with
      | b1 :: r => isUtf8Cont b1 && isValidUtf8 r
      | [] => false
    else if b0 = 224 then
      match rest with
      | b1 :: b2 :: r => (160 ≤ b1 && b1 ≤ 191) && isUtf8Cont b2 && isValidUtf8 r
      | _ => false
    else if (225 ≤ b0 && b0 ≤ 236) || b0 = 238 || b0 = 239 then
      match rest with
      | b1 :: b2 :: r => isUtf8Cont b1 && isUtf8Cont b2 && isValidUtf8 r
      | _ => false
    else if b0 = 237 then
      match rest with
      | b1 :: b2 :: r => (128 ≤ b1 && b1 ≤ 159) && isUtf8Cont b2 && isValidUtf8 r
      | _ => false
    else if b0 = 240 then
      match rest with
      | b1 :: b2 :: b3 :: r =>
        (144 ≤ b1 && b1 ≤ 191) && isUtf8Cont b2 && isUtf8Cont b3 && isValidUtf8 r
      | _ => false
    else if 241 ≤ b0 && b0 ≤ 243 then
      match rest with
      | b1 :: b2 :: b3 :: r =>
        isUtf8Cont b1 && isUtf8Cont b2 && isUtf8Cont b3 && isValidUtf8 r
      | _ => false
    else if b0 = 244 then
      match rest with
      | b1 :: b2 :: b3 :: r =>
        (128 ≤ b1 && b1 ≤ 143) && isUtf8Cont b2 && isUtf8Cont b3 && isValidUtf8 r
      | _ => false
    else
      false

/-- XcbConnection::str_prop with the get_property round-trip abstracted as
reply, carrying the raw property bytes on success. The atom call happens
while the request is built, so an unknown name panics before any round-trip;
afterwards a failed round-trip or invalid UTF-8 bytes become an error value
and valid bytes are returned (String::from_utf8 keeps the bytes as-is). -/
def XcbConnection.str_prop (conn : XcbConnection) (id : Nat) (name : String)
    (reply : Except String (List Nat)) : Outcome (Except String (List Nat)) :=
  match conn.atom name with
  | Outcome.fatal m => Outcome.fatal m
  | Outcome.value _ =>
    Outcome.value
      (match reply with
       | Except.error e => Except.error ("unable to fetch window property: " ++ e)
       | Except.ok bytes =>
         if isValidUtf8 bytes then Except.ok bytes
         else Except.error "invalid utf8 resonse from xcb")

/-- XcbConnection::atom_prop with the get_property round-trip abstracted as
reply, carrying the 32-bit value list on success. The empty-list case is the
value_len() <= 0 check and the head of the non-empty case is value()[0]. -/
def XcbConnection.atom_prop (conn : XcbConnection) (id : Nat) (name : String)
    (reply : Except String (List Nat)) : Outcome (Except String Nat) :=
  match conn.atom name with
  | Outcome.fatal m => Outcome.fatal m
  | Outcome.value _ =>
    Outcome.value
      (match reply with
       | Except.error e => Except.error ("unable to fetch window property: " ++ e)
       | Except.ok [] =>
         Except.error ("property " ++ name ++ " was empty for id: " ++ toString id)
       | Except.ok (v :: _) => Except.ok v)

/-- XcbConnection::window_should_float with both round-trips abstracted:
wm_class_reply feeds the str_prop call for WM_CLASS and window_type_reply is
the value list of the get_property call for the window type. A class-name
match returns early, before the window-type request is even built. -/
def XcbConnection.window_should_float (conn : XcbConnection) (id : Nat)
    (floating_classes : List (List Nat))
    (wm_class_reply : Except String (List Nat))
    (window_type_reply : Except String (List Nat)) : Outcome Bool :=
  match conn.str_prop id "WM_CLASS" wm_class_reply with
  | Outcome.fatal m => Outcome.fatal m
  | Outcome.value res =>
    if (match res with
        | Except.ok s => (List.splitOn 0 s).any (fun c => floating_classes.contains c)
        | Except.error _ => false) then
      Outcome.value true
    else
      match conn.atom "_NET_WM_WINDOW_TYPE" with
      | Outcome.fatal m => Outcome.fatal m
      | Outcome.value _ =>
        Outcome.value
          (match window_type_reply with
           | Except.error _ => false
           | Except.ok types => types.any (fun t => conn.auto_float_types.contains t))

/-- One CRTC info reply: the geometry fields the Screen constructor reads. -/
structure CrtcInfoReply where
  x : Int
  y : Int
  width : Nat
  height : Nat
  deriving Repr, DecidableEq

/-- Modelled from the spec: Screen::from_crtc_info_reply (src/screen.rs,
outside the analyzed sources) builds a Screen whose true_region copies the
geometry of the server-reported CRTC description, with the usable area
initially the whole output and the given index. -/
def Screen.from_crtc_info_reply (r : CrtcInfoReply) (i : Nat) : Screen :=
  let region := Region.mk (as_u32 r.x) (as_u32 r.y) r.width r.height
  { true_region := region, effective_region := region, wix := i }

/-- XcbConnection::current_outputs with the round-trips abstracted:
resources is the get_screen_resources reply and each list entry is the
get_crtc_info reply for one CRTC. A failed resources reply panics; failed
per-CRTC replies are dropped by the flat_map; the surviving replies are
enumerated, turned into Screens and filtered to positive true_region width. -/
def XcbConnection.current_outputs (_conn : XcbConnection)
    (resources : Except String (List (Except String CrtcInfoReply))) :
    Outcome (List Screen) :=
  match resources with
  | Except.error e => Outcome.fatal ("error reading X screen resources: " ++ e)
  | Except.ok crtc_replies =>
    Outcome.value
      ((((crtc_replies.filterMap Except.toOption).enum).map
          (fun p => Screen.from_crtc_info_reply p.2 p.1)).filter
        (fun s => match s.true_region.values with
                  | (_, _, w, _) => decide (0 < w)))

/-- The deterministic test double: the caller-supplied screen list, the
consumable scripted event queue (a Cell of a Vec) and the focused-window
cell, as in struct MockXConn. -/
structure MockXConn where
  screens : List Screen
  events : List XEvent
  focused : Nat
  deriving Repr, DecidableEq

/-- MockXConn::new: pre-defined screens and events, focus cell at 0. -/
def MockXConn.new (screens : List Screen) (events : List XEvent) : MockXConn :=
  { screens := screens, events := events, focused := 0 }

/-- MockXConn::wait_for_event: take the queue out of the cell, return none
when it is empty, otherwise remove(0) the head, put the rest back and return
it. State passing is explicit: the result pairs the answer with the
connection after the call. -/
def MockXConn.wait_for_event (m : MockXConn) : Option XEvent × MockXConn :=
  match m.events with
  | [] => (none, { m with events := [] })
  | next :: remaining => (some next, { m with events := remaining })

/-- MockXConn::current_outputs: the seeded screen list, verbatim. -/
def MockXConn.current_outputs (m : MockXConn) : List Screen := m.screens

/-- MockXConn::focused_client: read the focus cell. -/
def MockXConn.focused_client (m : MockXConn) : Nat := m.focused

/-- MockXConn::focus_client: replace the focus cell with the given id. -/
def MockXConn.focus_client (m : MockXConn) (id : Nat) : MockXConn :=
  { m with focused := id }

/-- MockXConn::window_should_float: constantly true, ignoring both
arguments. -/
def MockXConn.window_should_float (_m : MockXConn) (_id : Nat)
    (_floating_classes : List (List Nat)) : Bool :=
  true

/-! Helper lemmas about the interned atom table. -/

theorem lookupAtom_map_of_mem {l : List String} {f : String → Nat} {name : String}
    (h : name ∈ l) : lookupAtom (l.map fun a => (a, f a)) name = some (f name) := by
  induction l with
  | nil => cases h
  | cons a rest ih =>
    rcases List.mem_cons.mp h with rfl | hr
    · simp [lookupAtom]
    · by_cases ha : a = name
      · subst ha; simp [lookupAtom]
      · simp [lookupAtom, ha, ih hr]

theorem lookupAtom_map_of_not_mem {l : List String} {f : String → Nat} {name : String}
    (h : name ∉ l) : lookupAtom (l.map fun a => (a, f a)) name = none := by
  induction l with
  | nil => rfl
  | cons a rest ih =>
    have ha : a ≠ name := fun e => h (e ▸ List.mem_cons_self a rest)
    have hr : name ∉ rest := fun e => h (List.mem_cons_of_mem a e)
    simp [lookupAtom, ha, ih hr]

theorem atom_new_of_mem (f : String → Nat) (fe : Nat) {name : String}
    (h : name ∈ ATOMS) :
    (XcbConnection.new f fe).atom name = Outcome.value (f name) := by
  simp [XcbConnection.new, XcbConnection.atom, lookupAtom_map_of_mem h]

theorem atom_new_of_not_mem (f : String → Nat) (fe : Nat) {name : String}
    (h : name ∉ ATOMS) :
    (XcbConnection.new f fe).atom name = Outcome.fatal (name ++ " is not a known atom") := by
  simp [XcbConnection.new, XcbConnection.atom, lookupAtom_map_of_not_mem h]

/-- C1: a raw wire event whose type tag equals the randr extension base plus
the randr notify offset translates to RandrNotify, whatever the remaining
fields of the raw event hold; the check precedes the dispatch on literal
tags, so it wins even when the tag also equals one of them. -/
theorem wait_for_event_randr_has_priority
    (conn : XcbConnection) (event : RawEvent)
    (h : event.response_type = (conn.randr_base + xcb.randr.NOTIFY) % 256) :
    conn.wait_for_event (some event) = some XEvent.RandrNotify := by
  simp [XcbConnection.wait_for_event, h]

/-- Witness for C1 at a base whose notify tag collides with the ButtonPress
literal tag, showing that the randr check is applied first. -/
theorem wait_for_event_randr_has_priority_witness :
    (RawEvent.mk 4 0 0 0 0 false 0 0 0 0).response_type =
      ((XcbConnection.new (fun _ => 0) 3).randr_base + xcb.randr.NOTIFY) % 256 ∧
    (XcbConnection.new (fun _ => 0) 3).wait_for_event
      (some (RawEvent.mk 4 0 0 0 0 false 0 0 0 0)) = some XEvent.RandrNotify :=
  ⟨rfl, wait_for_event_randr_has_priority _ _ rfl⟩

/-- C4: a raw wire event whose type tag is outside the recognized tag set
and differs from the randr notify tag translates to none; the translator is
a total function into Option XEvent, so no error and no panic is possible. -/
theorem wait_for_event_unrecognized_is_none
    (conn : XcbConnection) (event : RawEvent)
    (hr : event.response_type ≠ (conn.randr_base + xcb.randr.NOTIFY) % 256)
    (ht : event.response_type ∉ recognizedTags) :
    conn.wait_for_event (some event) = none := by
  simp only [recognizedTags, List.mem_cons, List.not_mem_nil, or_false, not_or] at ht
  obtain ⟨h4, h5, h2, h19, h7, h8, h9, h10, h17, h0⟩ := ht
  simp [XcbConnection.wait_for_event, hr, h4, h5, h2, h19, h7, h8, h9, h10, h17, h0]

/-- Witness for C4 at the KeyRelease tag 3, which the dispatch does not
recognize, on a connection with the usual randr base 89. -/
theorem wait_for_event_unrecognized_is_none_witness :
    (RawEvent.mk 3 0 0 0 0 false 0 0 0 0).response_type ≠
      ((XcbConnection.new (fun _ => 0) 89).randr_base + xcb.randr.NOTIFY) % 256 ∧
    (RawEvent.mk 3 0 0 0 0 false 0 0 0 0).response_type ∉ recognizedTags ∧
    (XcbConnection.new (fun _ => 0) 89).wait_for_event
      (some (RawEvent.mk 3 0 0 0 0 false 0 0 0 0)) = none :=
  ⟨by decide, by decide,
   wait_for_event_unrecognized_is_none _ _ (by decide) (by decide)⟩

/-- Counterexample to C5 as stated: on a connection whose randr extension
base is 3, a raw event carrying the ButtonPress tag 4 equals the randr
notify tag 3 + 1 and is translated to RandrNotify, not to none, because the
randr check runs before the literal-tag dispatch. -/
theorem wait_for_event_button_press_counterexample :
    (XcbConnection.new (fun _ => 0) 3).wait_for_event
      (some (RawEvent.mk xcb.BUTTON_PRESS 0 0 0 0 false 0 0 0 0)) =
      some XEvent.RandrNotify := by
  decide

/-- C5 (amended): a raw wire event carrying the button-press or the
button-release tag translates to none, provided its tag differs from the
randr notify tag (randr base plus notify offset), which is checked first. -/
theorem wait_for_event_button_is_none
    (conn : XcbConnection) (event : RawEvent)
    (hr : event.response_type ≠ (conn.randr_base + xcb.randr.NOTIFY) % 256)
    (hb : event.response_type = xcb.BUTTON_PRESS ∨
          event.response_type = xcb.BUTTON_RELEASE) :
    conn.wait_for_event (some event) = none := by
  rcases hb with hb | hb <;> rw [hb] at hr <;>
    simp [XcbConnection.wait_for_event, hr, hb, xcb.BUTTON_PRESS, xcb.BUTTON_RELEASE] at hr ⊢ <;>
    simp [hr]

/-- Witness for the amended C5 at the ButtonPress tag on a connection with
the usual randr base 89. -/
theorem wait_for_event_button_is_none_witness :
    (RawEvent.mk 4 0 0 0 0 false 0 0 0 0).response_type ≠
      ((XcbConnection.new (fun _ => 0) 89).randr_base + xcb.randr.NOTIFY) % 256 ∧
    (XcbConnection.new (fun _ => 0) 89).wait_for_event
      (some (RawEvent.mk 4 0 0 0 0 false 0 0 0 0)) = none :=
  ⟨by decide, wait_for_event_button_is_none _ _ (by decide) (Or.inl rfl)⟩

/-- Counterexample to C2 as stated: for an atom name outside the
pre-resolved set, str_prop panics (the expect inside atom fires while the
get_property request is built) instead of returning an error result, even
when the server reply would have been fine. -/
theorem str_prop_unknown_atom_counterexample :
    (XcbConnection.new (fun _ => 0) 89).str_prop 1 "SOME_OTHER_ATOM" (Except.ok []) =
      Outcome.fatal "SOME_OTHER_ATOM is not a known atom" := by
  rfl

/-- C2 (amended): str_prop panics when the atom name is not in the
pre-resolved set; for a pre-resolved name it never panics and returns an
error result exactly when the server round-trip fails or the returned bytes
are not valid UTF-8, and the bytes otherwise. -/
theorem str_prop_error_behaviour
    (f : String → Nat) (fe id : Nat) (name : String)
    (reply : Except String (List Nat)) :
    (name ∉ ATOMS →
      (XcbConnection.new f fe).str_prop id name reply =
        Outcome.fatal (name ++ " is not a known atom")) ∧
    (name ∈ ATOMS →
      (∀ e, reply = Except.error e →
        (XcbConnection.new f fe).str_prop id name reply =
          Outcome.value (Except.error ("unable to fetch window property: " ++ e))) ∧
      (∀ bytes, reply = Except.ok bytes → isValidUtf8 bytes = false →
        (XcbConnection.new f fe).str_prop id name reply =
          Outcome.value (Except.error "invalid utf8 resonse from xcb")) ∧
      (∀ bytes, reply = Except.ok bytes → isValidUtf8 bytes = true →
        (XcbConnection.new f fe).str_prop id name reply =
          Outcome.value (Except.ok bytes))) := by
  constructor
  · intro h
    simp [XcbConnection.str_prop, atom_new_of_not_mem f fe h]
  · intro h
    refine ⟨?_, ?_, ?_⟩
    · rintro e rfl
      simp [XcbConnection.str_prop, atom_new_of_mem f fe h]
    · rintro bytes rfl hv
      simp [XcbConnection.str_prop, atom_new_of_mem f fe h, hv]
    · rintro bytes rfl hv
      simp [XcbConnection.str_prop, atom_new_of_mem f fe h, hv]

/-- Witness for the amended C2: the known name WM_CLASS with an invalid
UTF-8 byte in the reply yields an error value, not a panic. -/
theorem str_prop_error_behaviour_witness :
    (XcbConnection.new (fun _ => 7) 89).str_prop 5 "WM_CLASS" (Except.ok [255]) =
      Outcome.value (Except.error "invalid utf8 resonse from xcb") :=
  (((str_prop_error_behaviour (fun _ => 7) 89 5 "WM_CLASS"
      (Except.ok [255])).2 (by decide)).2.1) [255] rfl (by decide)

/-- C3: whenever the WM_CLASS property bytes, split on the null separator,
contain an entry of the floating-class list, window_should_float returns
true for every possible window-type reply: the early return fires before the
window-type request is built, so rule 1 takes precedence over rule 2. -/
theorem window_should_float_class_precedence
    (f : String → Nat) (fe id : Nat) (floating_classes : List (List Nat))
    (s : List Nat) (window_type_reply : Except String (List Nat))
    (hv : isValidUtf8 s = true)
    (hc : (List.splitOn 0 s).any (fun c => floating_classes.contains c) = true) :
    (XcbConnection.new f fe).window_should_float id floating_classes
      (Except.ok s) window_type_reply = Outcome.value true := by
  have hwm : ("WM_CLASS" : String) ∈ ATOMS := by decide
  simp only [XcbConnection.window_should_float, XcbConnection.str_prop,
             atom_new_of_mem f fe hwm, hv, if_true]
  rw [if_pos hc]

/-- Witness for C3: class bytes foo NUL bar with foo in the floating list
float the window even though the window-type reply names no type at all. -/
theorem window_should_float_class_precedence_witness :
    isValidUtf8 [102, 111, 111, 0, 98, 97, 114] = true ∧
    (List.splitOn 0 [102, 111, 111, 0, 98, 97, 114]).any
      (fun c => [[102, 111, 111]].contains c) = true ∧
    (XcbConnection.new (fun _ => 0) 89).window_should_float 7 [[102, 111, 111]]
      (Except.ok [102, 111, 111, 0, 98, 97, 114]) (Except.ok []) =
      Outcome.value true :=
  ⟨by decide, by decide,
   window_should_float_class_precedence (fun _ => 0) 89 7 [[102, 111, 111]]
     [102, 111, 111, 0, 98, 97, 114] (Except.ok []) (by decide) (by decide)⟩

/-- C6: for a pre-resolved atom name, atom_prop returns an error value
exactly when the round-trip fails or the returned property is empty (the
zero-length case is an error, never the value zero), and the first element
of the reply on success. -/
theorem atom_prop_error_behaviour
    (f : String → Nat) (fe id : Nat) (name : String)
    (reply : Except String (List Nat))
    (hname : name ∈ ATOMS) :
    (∀ e, reply = Except.error e →
      (XcbConnection.new f fe).atom_prop id name reply =
        Outcome.value (Except.error ("unable to fetch window property: " ++ e))) ∧
    (reply = Except.ok [] →
      (XcbConnection.new f fe).atom_prop id name reply =
        Outcome.value (Except.error
          ("property " ++ name ++ " was empty for id: " ++ toString id))) ∧
    (∀ v rest, reply = Except.ok (v :: rest) →
      (XcbConnection.new f fe).atom_prop id name reply =
        Outcome.value (Except.ok v)) := by
  refine ⟨?_, ?_, ?_⟩
  · rintro e rfl
    simp [XcbConnection.atom_prop, atom_new_of_mem f fe hname]
  · rintro rfl
    simp [XcbConnection.atom_prop, atom_new_of_mem f fe hname]
  · rintro v rest rfl
    simp [XcbConnection.atom_prop, atom_new_of_mem f fe hname]

/-- Witness for C6: reading WM_STATE with a two-element reply returns its
first element. -/
theorem atom_prop_error_behaviour_witness :
    (XcbConnection.new (fun _ => 2) 89).atom_prop 9 "WM_STATE" (Except.ok [42, 7]) =
      Outcome.value (Except.ok 42) :=
  (atom_prop_error_behaviour (fun _ => 2) 89 9 "WM_STATE"
    (Except.ok [42, 7]) (by decide)).2.2 42 [7] rfl

/-- C7: every Screen that current_outputs returns has a true_region of
strictly positive width, and the concrete CRTC list with one zero-width and
one 1920-wide entry yields exactly the one Screen built from the second
entry (still carrying enumeration index 1). -/
theorem current_outputs_positive_width
    (conn : XcbConnection) (crtc_replies : List (Except String CrtcInfoReply))
    (out : List Screen) (s : Screen)
    (hout : conn.current_outputs (Except.ok crtc_replies) = Outcome.value out)
    (hs : s ∈ out) :
    0 < s.true_region.w ∧
    conn.current_outputs
        (Except.ok [Except.ok (CrtcInfoReply.mk 0 0 0 0),
                    Except.ok (CrtcInfoReply.mk 0 0 1920 1080)]) =
      Outcome.value [Screen.from_crtc_info_reply (CrtcInfoReply.mk 0 0 1920 1080) 1] := by
  constructor
  · have h1 :
        (((crtc_replies.filterMap Except.toOption).enum).map
            (fun p => Screen.from_crtc_info_reply p.2 p.1)).filter
          (fun t => match t.true_region.values with
                    | (_, _, w, _) => decide (0 < w)) = out := by
      simpa [XcbConnection.current_outputs] using hout
    have h2 := (List.mem_filter.mp (h1 ▸ hs)).2
    exact of_decide_eq_true h2
  · rfl

/-- Witness for C7 at the concrete CRTC list of the claim, with the surviving
Screen as the member. -/
theorem current_outputs_positive_width_witness :
    0 < (Screen.from_crtc_info_reply (CrtcInfoReply.mk 0 0 1920 1080) 1).true_region.w ∧
    (XcbConnection.new (fun _ => 0) 89).current_outputs
        (Except.ok [Except.ok (CrtcInfoReply.mk 0 0 0 0),
                    Except.ok (CrtcInfoReply.mk 0 0 1920 1080)]) =
      Outcome.value [Screen.from_crtc_info_reply (CrtcInfoReply.mk 0 0 1920 1080) 1] :=
  current_outputs_positive_width (XcbConnection.new (fun _ => 0) 89)
    [Except.ok (CrtcInfoReply.mk 0 0 0 0), Except.ok (CrtcInfoReply.mk 0 0 1920 1080)]
    [Screen.from_crtc_info_reply (CrtcInfoReply.mk 0 0 1920 1080) 1]
    (Screen.from_crtc_info_reply (CrtcInfoReply.mk 0 0 1920 1080) 1)
    rfl (List.mem_singleton.mpr rfl)

/-- C8: the test double consumes its scripted queue head-first: one call
returns the head of the queue (none when it is empty) and leaves exactly the
tail behind, touching neither the screens nor the focus cell; in particular
the queue KeyPress K then ScreenChange yields KeyPress K, ScreenChange,
none, none over four successive calls. -/
theorem mock_wait_for_event_fifo :
    (∀ m : MockXConn,
      (m.wait_for_event).1 = m.events.head? ∧
      (m.wait_for_event).2.events = m.events.tail ∧
      (m.wait_for_event).2.screens = m.screens ∧
      (m.wait_for_event).2.focused = m.focused) ∧
    (∀ K : KeyCode,
      ((MockXConn.new [] [XEvent.KeyPress K, XEvent.ScreenChange]).wait_for_event).1 =
        some (XEvent.KeyPress K) ∧
      ((((MockXConn.new [] [XEvent.KeyPress K,
          XEvent.ScreenChange]).wait_for_event).2).wait_for_event).1 =
        some XEvent.ScreenChange ∧
      ((((((MockXConn.new [] [XEvent.KeyPress K,
          XEvent.ScreenChange]).wait_for_event).2).wait_for_event).2).wait_for_event).1 =
        none ∧
      ((((((((MockXConn.new [] [XEvent.KeyPress K,
          XEvent.ScreenChange]).wait_for_event).2).wait_for_event).2).wait_for_event).2).wait_for_event).1 =
        none) := by
  refine ⟨fun m => ?_, fun K => ⟨rfl, rfl, rfl, rfl⟩⟩
  cases m with
  | mk screens events focused => cases events <;> simp [MockXConn.wait_for_event]

/-- C9: on the test double, focusing a window and reading the focused client
back returns exactly that window id. -/
theorem mock_focus_client_focused_client (m : MockXConn) (id : Nat) :
    (m.focus_client id).focused_client = id := rfl

/-- C10: the test double floats every window: window_should_float is
constantly true, whatever the window id and the floating-class list, the
empty list included, without consulting any property. -/
theorem mock_window_should_float_true (m : MockXConn) (id : Nat)
    (floating_classes : List (List Nat)) :
    m.window_should_float id floating_classes = true ∧
    m.window_should_float id [] = true :=
  ⟨rfl, rfl⟩
